import Mathlib

/-
  Shallow embedding of the retail-analytics ETL pipeline:
  etl/generate_data.py (the Generator) and etl/load_data.py (the Loader).

  Money amounts are modelled as rationals; dates are modelled as integer
  day numbers (day 0 = 2023-01-01, the configured START_DATE).  Random
  draws are modelled as explicit parameters, constrained by hypotheses to
  the ranges the Python `random` calls produce.
-/

namespace RetailAnalytics

/-- `x.round(2)` / `round(x, 2)`: rounding to two decimal places. -/
def round2 (x : ℚ) : ℚ := ((round (x * 100) : ℤ) : ℚ) / 100

/-- Configuration constant NUM_CUSTOMERS = 500. -/
def NUM_CUSTOMERS : Nat := 500

/-- Configuration constant NUM_PRODUCTS = 200. -/
def NUM_PRODUCTS : Nat := 200

/-- Configuration constant NUM_STORES = 10. -/
def NUM_STORES : Nat := 10

/-- Configuration constant NUM_SALES = 10000. -/
def NUM_SALES : Nat := 10000

/-- START_DATE = datetime(2023, 1, 1), as day number 0. -/
def START_DATE : Int := 0

/-- END_DATE = datetime(2024, 12, 31), i.e. 730 days after START_DATE. -/
def END_DATE : Int := 730

/-- A row of data/customers.csv. -/
structure Customer where
  customer_id : Nat
  first_name : String
  last_name : String
  email : String
  city : String
  signup_date : Int
deriving DecidableEq

/-- A row of data/stores.csv. -/
structure Store where
  store_id : Nat
  store_name : String
  city : String
  region : String
  manager_name : String
deriving DecidableEq

/-- A row of data/products.csv. -/
structure Product where
  product_id : Nat
  product_name : String
  category : String
  brand : String
  unit_cost : ℚ
  unit_price : ℚ
deriving DecidableEq

/-- A row of data/sales_transactions.csv. -/
structure Sale where
  transaction_id : Nat
  customer_id : Nat
  product_id : Nat
  store_id : Nat
  date : Int
  quantity : Nat
  unit_price : ℚ
  total_amount : ℚ
deriving DecidableEq

/-- One iteration of the customer generation loop: customer `i` with the
city drawn by `random.choice` and `d = random.randint(0, 365)`; the signup
date is `START_DATE - timedelta(days=d)`. -/
def mkCustomer (startDate : Int) (i : Nat) (city : String) (d : Nat) : Customer :=
  { customer_id := i
    first_name := s!"Customer_{i}"
    last_name := s!"Lastname_{i}"
    email := s!"customer{i}@example.com"
    city := city
    signup_date := startDate - (d : Int) }

/-- The random draws consumed by one iteration of the product generation
loop: the category choice, `base_price = random.uniform(5, 200)`, the two
category factors (`random.uniform(1.2, 2.0)` for Electronics,
`random.uniform(0.5, 1.5)` for Clothing) and the brand number. -/
structure ProductDraw where
  category : String
  basePrice : ℚ
  factorE : ℚ
  factorC : ℚ
  brandNum : Nat

/-- The category-adjusted base price: `base_price` is multiplied by the
Electronics factor or the Clothing factor depending on the drawn
category, and left unchanged otherwise. -/
def adjustPrice (d : ProductDraw) : ℚ :=
  if d.category = "Electronics" then d.basePrice * d.factorE
  else if d.category = "Clothing" then d.basePrice * d.factorC
  else d.basePrice

/-- One iteration of the product generation loop: product `i` built from
the draws `d`, with `unit_cost = round(base_price * 0.6, 2)` and
`unit_price = round(base_price, 2)` taken after the category adjustment. -/
def mkProduct (i : Nat) (d : ProductDraw) : Product :=
  { product_id := i
    product_name := s!"Product_{i}"
    category := d.category
    brand := s!"Brand_{d.brandNum}"
    unit_cost := round2 (adjustPrice d * (6 / 10))
    unit_price := round2 (adjustPrice d) }

/-- The full product generation loop `for i in range(1, NUM_PRODUCTS + 1)`:
product ids are the sequential values 1..n. -/
def genProducts (n : Nat) (draws : Nat → ProductDraw) : List Product :=
  (List.range n).map (fun k => mkProduct (k + 1) (draws k))

/-- `df_products[df_products['product_id'] == pid]['unit_price'].iloc[0]`:
filter the product table by product id and take the first unit price;
`none` models the IndexError raised when the filter result is empty. -/
def lookupUnitPrice (products : List Product) (pid : Nat) : Option ℚ :=
  ((products.filter (fun p => p.product_id = pid)).map Product.unit_price).head?

/-- The unit price assigned to a sale:
`product_data[j]['product_id']` for the independently drawn index
`j = random.randint(0, NUM_PRODUCTS - 1)` is looked up in the product
table; `none` models the two possible IndexErrors. -/
def saleUnitPrice (products : List Product) (j : Nat) : Option ℚ :=
  match products[j]? with
  | none => none
  | some pj => lookupUnitPrice products pj.product_id

/-- One iteration of the sales generation loop.  `monthOf` abstracts the
calendar (the month of a given day number); `dayOff` is
`random.randint(0, (END_DATE - START_DATE).days)`; `qHigh`/`qLow` are the
quantity draws `random.randint(1, 5)` / `random.randint(1, 3)`; `j` is the
second, independent product index used only for the unit price.
`total_amount` is set to 0 here and recomputed afterwards. -/
def mkSale (products : List Product) (startDate : Int) (monthOf : Int → Nat)
    (dayOff : Nat) (txnId custId pid storeId : Nat) (qHigh qLow j : Nat) : Option Sale :=
  let saleDate : Int := startDate + (dayOff : Int)
  let quantity : Nat := if monthOf saleDate = 11 ∨ monthOf saleDate = 12 then qHigh else qLow
  match saleUnitPrice products j with
  | none => none
  | some up =>
    some { transaction_id := txnId
           customer_id := custId
           product_id := pid
           store_id := storeId
           date := saleDate
           quantity := quantity
           unit_price := up
           total_amount := 0 }

/-- The post-loop pass
`df_sales['total_amount'] = (df_sales['unit_price'] * df_sales['quantity']).round(2)`
applied to one row. -/
def computeTotal (s : Sale) : Sale :=
  { s with total_amount := round2 (s.unit_price * (s.quantity : ℚ)) }

/-- The post-loop pass applied to the whole sales table. -/
def finalizeSales (sales : List Sale) : List Sale :=
  sales.map computeTotal

/-
  Loader: etl/load_data.py, function load_data_to_db.
-/

/-- A row of the destination fact table sales_fact.  A missing unit cost
from the left join gives a missing (NaN) profit, modelled as `none`. -/
structure FactRow where
  transaction_id : Nat
  customer_id : Nat
  product_id : Nat
  store_id : Nat
  sale_date : Int
  quantity : Nat
  unit_price : ℚ
  total_amount : ℚ
  profit : Option ℚ
deriving DecidableEq

/-- The contribution of one sale row to
`df_sales.merge(df_products[['product_id', 'unit_cost']], on='product_id', how='left')`:
one output row per matching product carrying that product's unit cost, or
a single row with a missing cost when no product matches. -/
def mergeCost (products : List Product) (s : Sale) : List (Sale × Option ℚ) :=
  match products.filter (fun p => p.product_id = s.product_id) with
  | [] => [(s, none)]
  | ms => ms.map (fun p => (s, some p.unit_cost))

/-- The whole left merge of the sales table with the product table on
product_id, preserving the order of the sales rows. -/
def mergeLeft (sales : List Sale) (products : List Product) : List (Sale × Option ℚ) :=
  sales.flatMap (fun s => mergeCost products s)

/-- Building one sales_fact row from a merged row:
`profit = (total_amount - quantity * unit_cost).round(2)` (missing cost
propagates to missing profit), `date` renamed to `sale_date`, and the
fixed fact column set selected. -/
def mkFactRow (s : Sale) (cost : Option ℚ) : FactRow :=
  { transaction_id := s.transaction_id
    customer_id := s.customer_id
    product_id := s.product_id
    store_id := s.store_id
    sale_date := s.date
    quantity := s.quantity
    unit_price := s.unit_price
    total_amount := s.total_amount
    profit := cost.map (fun c => round2 (s.total_amount - (s.quantity : ℚ) * c)) }

/-- df_sales_fact: the fact table derived from the sales file and the
products file. -/
def buildFactTable (sales : List Sale) (products : List Product) : List FactRow :=
  (mergeLeft sales products).map (fun sc => mkFactRow sc.1 sc.2)

/-- The four CSV input files read by the Loader. -/
structure InputFiles where
  customers : List Customer
  stores : List Store
  products : List Product
  sales : List Sale
deriving DecidableEq

/-- The destination database restricted to the four tables the Loader
writes. -/
structure Database where
  dim_customer : List Customer
  dim_store : List Store
  dim_product : List Product
  sales_fact : List FactRow
deriving DecidableEq

/-- load_data_to_db: each `to_sql(..., if_exists='replace')` call fully
replaces the destination table; the dimension tables are written verbatim
and the fact table is derived from the sales and products files. -/
def load_data_to_db (files : InputFiles) (db : Database) : Database :=
  let db1 := { db with dim_customer := files.customers }
  let db2 := { db1 with dim_store := files.stores }
  let db3 := { db2 with dim_product := files.products }
  { db3 with sales_fact := buildFactTable files.sales files.products }

/-- The columns of data/sales_transactions.csv, in the order the
generator's row dictionaries declare them (the drop of unit_price is
commented out, so the column is written). -/
def salesCsvColumns : List String :=
  ["transaction_id", "customer_id", "product_id", "store_id", "date",
   "quantity", "unit_price", "total_amount"]

/-- The column selection
`df_sales_with_cost[['transaction_id', ..., 'profit']]` in load_data_to_db. -/
def factSelectColumns : List String :=
  ["transaction_id", "customer_id", "product_id", "store_id", "date",
   "quantity", "unit_price", "total_amount", "profit"]

/-- The rename `columns={'date': 'sale_date'}` applied to one column name. -/
def renameDateCol (c : String) : String :=
  if c = "date" then "sale_date" else c

/-- The columns of the destination sales_fact table: the selected columns
with `date` renamed to `sale_date`. -/
def factTableColumns : List String :=
  factSelectColumns.map renameDateCol

/-- The profit column computed through the unique `find?` match, used to
describe the fact table under unique product ids. -/
def factRowFor (products : List Product) (s : Sale) : FactRow :=
  mkFactRow s ((products.find? (fun p => p.product_id = s.product_id)).map Product.unit_cost)

/-- A concrete sale row used to instantiate hypotheses. -/
def sampleSale : Sale :=
  { transaction_id := 100000
    customer_id := 1
    product_id := 1
    store_id := 1
    date := 0
    quantity := 2
    unit_price := 10
    total_amount := 0 }

/-- A concrete draw stream for the product generator: product `k + 1` is a
"Books" product with base price `10 + k` (no category adjustment). -/
def sampleDraws : Nat → ProductDraw :=
  fun k => { category := "Books", basePrice := 10 + (k : ℚ), factorE := 1, factorC := 1, brandNum := 1 }

/-
  Helper lemmas.
-/

/-- Rounding to two decimals moves a rational by at most 1/200. -/
theorem abs_round2_sub_le (x : ℚ) : |round2 x - x| ≤ 1 / 200 := by
  have h := abs_sub_round (x * 100)
  have e : round2 x - x = -((x * 100 - ((round (x * 100) : ℤ) : ℚ)) / 100) := by
    unfold round2; ring
  rw [e, abs_neg, abs_div]
  have h100 : |(100 : ℚ)| = 100 := by norm_num
  rw [h100]
  linarith

/-- Filtering the range 0..n-1 for a fixed j < n keeps exactly j. -/
theorem range_filter_eq (n j : Nat) (hj : j < n) :
    (List.range n).filter (fun k => k = j) = [j] := by
  induction n with
  | zero => omega
  | succ m ih =>
    rw [List.range_succ, List.filter_append]
    by_cases hjm : j < m
    · rw [ih hjm]
      have hne : ¬ m = j := by omega
      simp [hne]
    · have hj' : j = m := by omega
      subst hj'
      have hnil : (List.range j).filter (fun k => k = j) = [] := by
        rw [List.filter_eq_nil_iff]
        intro a ha
        have : a < j := List.mem_range.1 ha
        simp
        omega
      rw [hnil]
      simp

/-- The element at index j of the generated product list. -/
theorem genProducts_getElem (n : Nat) (draws : Nat → ProductDraw) (j : Nat) (hj : j < n) :
    (genProducts n draws)[j]? = some (mkProduct (j + 1) (draws j)) := by
  unfold genProducts
  rw [List.getElem?_map, List.getElem?_range hj]
  rfl

/-- Under sequential id generation, filtering the product table by the id
of the j-th product keeps exactly that product. -/
theorem genProducts_filter (n : Nat) (draws : Nat → ProductDraw) (j : Nat) (hj : j < n) :
    (genProducts n draws).filter (fun p => p.product_id = j + 1)
      = [mkProduct (j + 1) (draws j)] := by
  unfold genProducts
  rw [List.filter_map]
  have hcomp : ((fun p : Product => decide (p.product_id = j + 1))
        ∘ fun k => mkProduct (k + 1) (draws k))
      = fun k => decide (k = j) := by
    funext k
    simp [mkProduct]
  rw [hcomp]
  have : (List.range n).filter (fun k => decide (k = j)) = [j] := range_filter_eq n j hj
  rw [this]
  rfl

/-- Looking up id j + 1 in a generated product table returns the j-th
product's unit price. -/
theorem lookupUnitPrice_genProducts (n : Nat) (draws : Nat → ProductDraw) (j : Nat)
    (hj : j < n) :
    lookupUnitPrice (genProducts n draws) (j + 1)
      = some (mkProduct (j + 1) (draws j)).unit_price := by
  unfold lookupUnitPrice
  rw [genProducts_filter n draws j hj]
  rfl

/-- The generator's unit-price lookup on a generated product table returns
the j-th product's unit price. -/
theorem saleUnitPrice_genProducts (n : Nat) (draws : Nat → ProductDraw) (j : Nat) (hj : j < n) :
    saleUnitPrice (genProducts n draws) j = some (mkProduct (j + 1) (draws j)).unit_price := by
  unfold saleUnitPrice
  rw [genProducts_getElem n draws j hj]
  show lookupUnitPrice (genProducts n draws) (mkProduct (j + 1) (draws j)).product_id
      = some (mkProduct (j + 1) (draws j)).unit_price
  unfold lookupUnitPrice
  rw [show (mkProduct (j + 1) (draws j)).product_id = j + 1 from rfl,
    genProducts_filter n draws j hj]
  rfl

/-- With unique product ids, the per-sale merge step produces exactly one
row, carrying the cost of the `find?` match. -/
theorem mergeCost_nodup (products : List Product) (s : Sale)
    (h : (products.map Product.product_id).Nodup) :
    mergeCost products s
      = [(s, (products.find? (fun p => p.product_id = s.product_id)).map Product.unit_cost)] := by
  induction products with
  | nil => rfl
  | cons p ps ih =>
    rw [List.map_cons, List.nodup_cons] at h
    by_cases hp : p.product_id = s.product_id
    · have htail : ps.filter (fun q => q.product_id = s.product_id) = [] := by
        rw [List.filter_eq_nil_iff]
        intro q hq
        simp only [decide_eq_true_eq]
        intro hq'
        exact h.1 (hp ▸ hq' ▸ List.mem_map_of_mem Product.product_id hq)
      unfold mergeCost
      rw [List.filter_cons_of_pos (by simp [hp]), htail,
        List.find?_cons_of_pos _ (by simp [hp])]
      rfl
    · have hhead : mergeCost (p :: ps) s = mergeCost ps s := by
        unfold mergeCost
        rw [List.filter_cons_of_neg (by simp [hp])]
      rw [hhead, ih h.2, List.find?_cons_of_neg _ (by simp [hp])]

/-- With unique product ids, a product of matching id is the `find?`
result. -/
theorem find?_eq_of_mem_nodup (products : List Product) (s : Sale) (p : Product)
    (h : (products.map Product.product_id).Nodup) (hp : p ∈ products)
    (hid : p.product_id = s.product_id) :
    products.find? (fun q => q.product_id = s.product_id) = some p := by
  induction products with
  | nil => cases hp
  | cons a ps ih =>
    rw [List.map_cons, List.nodup_cons] at h
    rcases List.mem_cons.1 hp with rfl | hmem
    · exact List.find?_cons_of_pos _ (by simp [hid])
    · have ha : ¬ a.product_id = s.product_id := by
        intro hh
        exact h.1 (hh ▸ hid ▸ List.mem_map_of_mem Product.product_id hmem)
      rw [List.find?_cons_of_neg _ (by simp [ha])]
      exact ih h.2 hmem

/-- With unique product ids, the fact table is the row-wise image of the
sales table. -/
theorem buildFactTable_eq_map (sales : List Sale) (products : List Product)
    (h : (products.map Product.product_id).Nodup) :
    buildFactTable sales products = sales.map (factRowFor products) := by
  induction sales with
  | nil => rfl
  | cons s ss ih =>
    unfold buildFactTable mergeLeft at ih ⊢
    rw [List.flatMap_cons, List.map_append, ih, mergeCost_nodup products s h, List.map_cons]
    rfl

/-
  Theorems for the claims.
-/

/-- C6: running the Loader twice against the same unchanged input files
leaves the four destination tables identical to running it once; every
table is fully replaced on each run, so the second run is idempotent with
respect to destination state. -/
theorem claim_C6 (files : InputFiles) (db : Database) :
    load_data_to_db files (load_data_to_db files db) = load_data_to_db files db := rfl

/-- C3: for every generated product row, unit_cost is within ±0.01 of
0.6 × unit_price, even though the 0.6 multiplier is applied to the
unrounded adjusted price. -/
theorem claim_C3 (i : Nat) (d : ProductDraw) :
    |(mkProduct i d).unit_cost - (6 / 10) * (mkProduct i d).unit_price| ≤ 1 / 100 := by
  have h1 := abs_round2_sub_le (adjustPrice d * (6 / 10))
  have h2 := abs_round2_sub_le (adjustPrice d)
  simp only [mkProduct]
  have e : round2 (adjustPrice d * (6 / 10)) - 6 / 10 * round2 (adjustPrice d)
      = (round2 (adjustPrice d * (6 / 10)) - adjustPrice d * (6 / 10))
        + (6 / 10) * -(round2 (adjustPrice d) - adjustPrice d) := by ring
  rw [e]
  calc |(round2 (adjustPrice d * (6 / 10)) - adjustPrice d * (6 / 10))
          + (6 / 10) * -(round2 (adjustPrice d) - adjustPrice d)|
      ≤ |round2 (adjustPrice d * (6 / 10)) - adjustPrice d * (6 / 10)|
          + |(6 / 10) * -(round2 (adjustPrice d) - adjustPrice d)| := abs_add _ _
    _ = |round2 (adjustPrice d * (6 / 10)) - adjustPrice d * (6 / 10)|
          + (6 / 10) * |round2 (adjustPrice d) - adjustPrice d| := by
        rw [abs_mul, abs_neg]; norm_num
    _ ≤ 1 / 200 + (6 / 10) * (1 / 200) := by
        have : (0 : ℚ) ≤ 6 / 10 := by norm_num
        nlinarith
    _ ≤ 1 / 100 := by norm_num

/-- C4: for every generated product row whose adjusted base price is at
least 2.5, unit_cost is strictly less than unit_price despite the
2-decimal rounding of both fields. -/
theorem claim_C4 (i : Nat) (d : ProductDraw) (h : 5 / 2 ≤ adjustPrice d) :
    (mkProduct i d).unit_cost < (mkProduct i d).unit_price := by
  have h1 := abs_round2_sub_le (adjustPrice d * (6 / 10))
  have h2 := abs_round2_sub_le (adjustPrice d)
  rw [abs_le] at h1 h2
  simp only [mkProduct]
  have hc := h1.2
  have hp := h2.1
  linarith

/-- Witness for C4 at product 1 of the sample draw stream. -/
theorem claim_C4_witness :
    (mkProduct 1 (sampleDraws 0)).unit_cost < (mkProduct 1 (sampleDraws 0)).unit_price :=
  claim_C4 1 (sampleDraws 0) (by norm_num [sampleDraws, adjustPrice])

/-- C5: every row of the finalized sales table satisfies
total_amount = round(unit_price × quantity, 2) with that same row's
unit_price and quantity. -/
theorem claim_C5 (sales : List Sale) (t : Sale) (ht : t ∈ finalizeSales sales) :
    t.total_amount = round2 (t.unit_price * (t.quantity : ℚ)) := by
  rcases List.mem_map.1 ht with ⟨s, _, rfl⟩
  rfl

/-- Witness for C5 on a one-row sales table. -/
theorem claim_C5_witness :
    (computeTotal sampleSale).total_amount
      = round2 ((computeTotal sampleSale).unit_price * ((computeTotal sampleSale).quantity : ℚ)) :=
  claim_C5 [sampleSale] (computeTotal sampleSale) (by simp [finalizeSales])

/-- C7 counterexample: the offset draw `random.randint(0, 365)` may be 0,
in which case the signup date equals START_DATE and is not strictly
earlier than it. -/
theorem claim_C7_counterexample :
    (mkCustomer START_DATE 1 "New York" 0).signup_date = START_DATE ∧
    ¬ (mkCustomer START_DATE 1 "New York" 0).signup_date < START_DATE := by
  constructor
  · decide
  · decide

/-- C7 (amended): for every generated customer row with offset draw
d ∈ [0, 365], the signup date is no later than START_DATE (it can equal
START_DATE when d = 0) and no more than 365 days before it. -/
theorem claim_C7 (startDate : Int) (i : Nat) (city : String) (d : Nat) (hd : d ≤ 365) :
    startDate - 365 ≤ (mkCustomer startDate i city d).signup_date ∧
    (mkCustomer startDate i city d).signup_date ≤ startDate := by
  simp only [mkCustomer]
  omega

/-- Witness for the amended C7 at offset 100. -/
theorem claim_C7_witness :
    START_DATE - 365 ≤ (mkCustomer START_DATE 2 "Chicago" 100).signup_date ∧
    (mkCustomer START_DATE 2 "Chicago" 100).signup_date ≤ START_DATE :=
  claim_C7 START_DATE 2 "Chicago" 100 (by decide)

/-- C9: on a generated product table the per-sale unit-price lookup never
fails: ids are exactly the sequential values 1..n, the filter by the j-th
product's id selects exactly one row, and taking the first element of the
filter result is always defined (the error branch is unreachable). -/
theorem claim_C9 (n : Nat) (draws : Nat → ProductDraw) (j : Nat) (hj : j < n) :
    (genProducts n draws).map Product.product_id = (List.range n).map (· + 1) ∧
    ((genProducts n draws).filter
        (fun p => p.product_id = (mkProduct (j + 1) (draws j)).product_id)).length = 1 ∧
    saleUnitPrice (genProducts n draws) j
      = some (mkProduct (j + 1) (draws j)).unit_price := by
  refine ⟨?_, ?_, saleUnitPrice_genProducts n draws j hj⟩
  · unfold genProducts
    rw [List.map_map]
    rfl
  · rw [show (mkProduct (j + 1) (draws j)).product_id = j + 1 from rfl,
      genProducts_filter n draws j hj]
    rfl

/-- Witness for C9 on a three-product table at index 1. -/
theorem claim_C9_witness :
    (genProducts 3 sampleDraws).map Product.product_id = (List.range 3).map (· + 1) ∧
    ((genProducts 3 sampleDraws).filter
        (fun p => p.product_id = (mkProduct (1 + 1) (sampleDraws 1)).product_id)).length = 1 ∧
    saleUnitPrice (genProducts 3 sampleDraws) 1
      = some (mkProduct (1 + 1) (sampleDraws 1)).unit_price :=
  claim_C9 3 sampleDraws 1 (by decide)

/-- C1: every generated sale row's unit_price equals the unit_price of the
second, independently drawn product (index j), and there are draws where
that differs from the unit_price of the product referenced by the row's
product_id. -/
theorem claim_C1 (n : Nat) (draws : Nat → ProductDraw) (startDate : Int) (monthOf : Int → Nat)
    (dayOff txnId custId pid storeId qHigh qLow j : Nat) (hj : j < n) :
    (mkSale (genProducts n draws) startDate monthOf dayOff txnId custId pid storeId
        qHigh qLow j).map Sale.unit_price
      = some (mkProduct (j + 1) (draws j)).unit_price ∧
    ∃ s : Sale,
      mkSale (genProducts 2 sampleDraws) 0 (fun _ => 1) 0 100000 1 1 1 1 1 1 = some s ∧
      s.product_id = 1 ∧
      lookupUnitPrice (genProducts 2 sampleDraws) s.product_id ≠ some s.unit_price := by
  constructor
  · unfold mkSale
    rw [saleUnitPrice_genProducts n draws j hj]
    rfl
  · refine ⟨{ transaction_id := 100000, customer_id := 1, product_id := 1, store_id := 1,
              date := 0, quantity := 1,
              unit_price := (mkProduct (1 + 1) (sampleDraws 1)).unit_price,
              total_amount := 0 }, ?_, rfl, ?_⟩
    · unfold mkSale
      rw [saleUnitPrice_genProducts 2 sampleDraws 1 (by decide)]
      rfl
    · show lookupUnitPrice (genProducts 2 sampleDraws) 1
          ≠ some (mkProduct (1 + 1) (sampleDraws 1)).unit_price
      rw [lookupUnitPrice_genProducts 2 sampleDraws 0 (by decide)]
      have e0 : (mkProduct (0 + 1) (sampleDraws 0)).unit_price = 10 := by
        show round2 (adjustPrice (sampleDraws 0)) = 10
        have ha : adjustPrice (sampleDraws 0) = 10 := by norm_num [sampleDraws, adjustPrice]
        rw [ha]
        norm_num [round2, round_eq]
      have e1 : (mkProduct (1 + 1) (sampleDraws 1)).unit_price = 11 := by
        show round2 (adjustPrice (sampleDraws 1)) = 11
        have ha : adjustPrice (sampleDraws 1) = 11 := by norm_num [sampleDraws, adjustPrice]
        rw [ha]
        norm_num [round2, round_eq]
      rw [e0, e1]
      norm_num

/-- Witness for C1 on a three-product table with second draw index 1. -/
theorem claim_C1_witness :
    (mkSale (genProducts 3 sampleDraws) 0 (fun _ => 1) 5 100000 1 2 1 1 1 1).map
        Sale.unit_price
      = some (mkProduct (1 + 1) (sampleDraws 1)).unit_price ∧
    ∃ s : Sale,
      mkSale (genProducts 2 sampleDraws) 0 (fun _ => 1) 0 100000 1 1 1 1 1 1 = some s ∧
      s.product_id = 1 ∧
      lookupUnitPrice (genProducts 2 sampleDraws) s.product_id ≠ some s.unit_price :=
  claim_C1 3 sampleDraws 0 (fun _ => 1) 5 100000 1 2 1 1 1 1 (by decide)

/-- C8: when product ids are unique, the fact table has exactly one row
per sales-file row in the same order: it is the row-wise image of the
sales table, so the left join neither duplicates nor drops sale rows. -/
theorem claim_C8 (sales : List Sale) (products : List Product)
    (h : (products.map Product.product_id).Nodup) :
    (buildFactTable sales products).length = sales.length ∧
    buildFactTable sales products = sales.map (factRowFor products) := by
  have e := buildFactTable_eq_map sales products h
  exact ⟨by rw [e, List.length_map], e⟩

/-- Witness for C8 on a one-row sales table and a two-product table. -/
theorem claim_C8_witness :
    (buildFactTable [sampleSale] (genProducts 2 sampleDraws)).length = [sampleSale].length ∧
    buildFactTable [sampleSale] (genProducts 2 sampleDraws)
      = [sampleSale].map (factRowFor (genProducts 2 sampleDraws)) :=
  claim_C8 [sampleSale] (genProducts 2 sampleDraws) (by decide)

/-- C2: with unique product ids, every sale row yields a fact row; if its
product_id matches a product, the profit is
round(total_amount − quantity × unit_cost, 2) with that product's
unit_cost, and if it matches no product the fact row is still present
with a missing profit. -/
theorem claim_C2 (sales : List Sale) (products : List Product) (s : Sale)
    (h : (products.map Product.product_id).Nodup) (hs : s ∈ sales) :
    factRowFor products s ∈ buildFactTable sales products ∧
    (∀ p ∈ products, p.product_id = s.product_id →
      (factRowFor products s).profit
        = some (round2 (s.total_amount - (s.quantity : ℚ) * p.unit_cost))) ∧
    (s.product_id ∉ products.map Product.product_id →
      (factRowFor products s).profit = none) := by
  refine ⟨?_, ?_, ?_⟩
  · rw [buildFactTable_eq_map sales products h]
    exact List.mem_map_of_mem _ hs
  · intro p hp hid
    unfold factRowFor
    rw [find?_eq_of_mem_nodup products s p h hp hid]
    rfl
  · intro hnot
    have hfind : products.find? (fun q => q.product_id = s.product_id) = none := by
      rw [List.find?_eq_none]
      intro q hq
      simp only [decide_eq_true_eq]
      intro hq'
      exact hnot (hq' ▸ List.mem_map_of_mem Product.product_id hq)
    unfold factRowFor
    rw [hfind]
    rfl

/-- Witness for C2: the sample sale matched against a two-product table. -/
theorem claim_C2_witness :
    factRowFor (genProducts 2 sampleDraws) sampleSale
        ∈ buildFactTable [sampleSale] (genProducts 2 sampleDraws) ∧
    (∀ p ∈ genProducts 2 sampleDraws, p.product_id = sampleSale.product_id →
      (factRowFor (genProducts 2 sampleDraws) sampleSale).profit
        = some (round2 (sampleSale.total_amount
            - (sampleSale.quantity : ℚ) * p.unit_cost))) ∧
    (sampleSale.product_id ∉ (genProducts 2 sampleDraws).map Product.product_id →
      (factRowFor (genProducts 2 sampleDraws) sampleSale).profit = none) :=
  claim_C2 [sampleSale] (genProducts 2 sampleDraws) sampleSale (by decide) (by decide)

/-- C10: the fact table columns are exactly transaction_id, customer_id,
product_id, store_id, sale_date, quantity, unit_price, total_amount,
profit in that order; sale_date is the renamed date column; unit_price is
retained in the generated sales CSV and carried into each fact row
unchanged. -/
theorem claim_C10 :
    factTableColumns
      = ["transaction_id", "customer_id", "product_id", "store_id", "sale_date",
         "quantity", "unit_price", "total_amount", "profit"] ∧
    "unit_price" ∈ salesCsvColumns ∧
    "unit_price" ∈ factTableColumns ∧
    ∀ (s : Sale) (cost : Option ℚ),
      (mkFactRow s cost).unit_price = s.unit_price ∧ (mkFactRow s cost).sale_date = s.date := by
  refine ⟨by decide, by decide, by decide, fun s cost => ⟨rfl, rfl⟩⟩

end RetailAnalytics
